import Mathlib

/-!
Shallow embedding of the data-access wrapper (`src/lib/api.ts`: the `api`
and `cmsApi` objects) and the session tracker (`src/contexts/AuthContext.tsx`)
of the 2ndradlett repository, together with proofs of the behavioural
claims about them.

Modelling conventions:
* A supabase query response `{ data, error }` is `QueryResult`.
* An awaited promise is abstracted by when and how it settles:
  `none` means it never settles, `some (t, r)` means it settles at abstract
  time `t` with outcome `r` (`Except.ok` = fulfilled, `Except.error` =
  rejected).  `withTimeout` races such a promise against its timer exactly
  as the `Promise.race` in the source does.
* Each wrapped operation records, besides its returned value, whether the
  database query was issued at all (`queried`) and which timeout bound was
  attached to it (`timeoutUsed`), so that "no network access" claims are
  about an observable field of the model.
* The environment (`import.meta.env`) is an explicit `Env` record; JS
  falsiness of the two configuration strings is modelled by `falsy`.
-/

namespace Radlett

/-- A supabase response `{ data, error }` as destructured at every call
site of `api.ts`: `data` may be absent (null), `error` may be present. -/
structure QueryResult (α : Type) where
  data : Option α
  error : Option String
deriving Repr, DecidableEq

/-- Abstraction of an awaited query promise: `none` never settles,
`some (t, r)` settles at time `t` with outcome `r` (ok = fulfilled,
error = rejected). -/
def QSettle (α : Type) : Type :=
  Option (Nat × Except String (QueryResult α))

/-- `withTimeout` of `src/lib/api.ts` lines 5-12 (and its identical twin in
the cms file, lines differing only in the default bound): races the query
promise against a timer that rejects with
`Request timeout after <timeoutMs>ms` once `timeoutMs` elapses.  The
earlier settler wins; a promise that has not settled strictly before the
bound is beaten by the timer. -/
def withTimeout {α : Type} (settle : Option (Nat × Except String α)) (timeoutMs : Nat) :
    Except String α :=
  match settle with
  | none => Except.error ("Request timeout after " ++ toString timeoutMs ++ "ms")
  | some (t, r) =>
      if t < timeoutMs then r
      else Except.error ("Request timeout after " ++ toString timeoutMs ++ "ms")

/-- The `import.meta.env` configuration surface read by
`shouldUseDemoMode`: the two connection parameters, each possibly absent. -/
structure Env where
  VITE_SUPABASE_URL : Option String
  VITE_SUPABASE_ANON_KEY : Option String
deriving Repr, DecidableEq

/-- JS falsiness of an optional string: `!x` is true when the variable is
undefined or the empty string. -/
def falsy : Option String → Bool
  | none => true
  | some s => s == ""

/-- `shouldUseDemoMode` of `src/lib/api.ts` lines 15-17 (and the identical
helper in the cms file): true when either connection parameter is absent. -/
def shouldUseDemoMode (env : Env) : Bool :=
  falsy env.VITE_SUPABASE_URL || falsy env.VITE_SUPABASE_ANON_KEY

/-- The message of the error thrown by every demo-mode guard in
`src/lib/api.ts`. -/
def demoModeError : String := "Demo mode - no database connection"

/-- Observable outcome of one wrapped operation: the value or error it
produces, whether the database query was issued, and the timeout bound
attached to the issued query (none when no query was issued). -/
structure ApiCall (α : Type) where
  result : Except String α
  queried : Bool
  timeoutUsed : Option Nat
deriving Repr

/-- Template followed by every wrapped database operation of `api.ts`
(both objects).  `checkDemo` records whether the source function performs
the demo-mode guard (several `api` writes do not); `timeoutMs` is the bound
passed to `withTimeout` at that call site; `errorLabel` is the
operation-specific prefix wrapped around a supabase error message; `shape`
is how the operation shapes the returned `data` (`id` for the plain
`data as T` casts, `head?` extraction for the single-row lookups, discard
for deletes).  The query construction itself (table, filters, ordering) is
abstracted into the `settle` parameter. -/
def dbOp {α β : Type} (checkDemo : Bool) (timeoutMs : Nat) (errorLabel : String)
    (shape : Option α → β) (env : Env) (settle : QSettle α) : ApiCall β :=
  if checkDemo && shouldUseDemoMode env then
    { result := Except.error demoModeError, queried := false, timeoutUsed := none }
  else
    match withTimeout settle timeoutMs with
    | Except.error e =>
        { result := Except.error e, queried := true, timeoutUsed := some timeoutMs }
    | Except.ok r =>
        match r.error with
        | some m =>
            { result := Except.error (errorLabel ++ m), queried := true,
              timeoutUsed := some timeoutMs }
        | none =>
            { result := Except.ok (shape r.data), queried := true,
              timeoutUsed := some timeoutMs }

/-- The member-profile record (`MemberProfile` of `../types`, reconstructed
from the fields the two source files read and write). -/
structure MemberProfile where
  id : String
  user_id : String
  full_name : String
  position : Option String
  role : String
  status : String
  join_date : String
  created_at : String
  updated_at : String
  email_verified : Bool
  registration_date : String
  last_login : Option String
  needs_password_reset : Option Bool
deriving Repr, DecidableEq

/-- The synthesized pending profile built by the demo branch of
`api.createMemberProfile` (`src/lib/api.ts` lines 53-64).  `nowIso` stands
for `new Date().toISOString()` and `nowMs` for `Date.now()` at the call. -/
def demoPendingProfile (userId fullName nowIso : String) (nowMs : Nat) : MemberProfile :=
  { id := "demo-" ++ toString nowMs
    user_id := userId
    full_name := fullName
    position := none
    role := "member"
    status := "pending"
    join_date := ((nowIso.splitOn "T").headD "")
    created_at := nowIso
    updated_at := nowIso
    email_verified := false
    registration_date := nowIso
    last_login := none
    needs_password_reset := none }

namespace api

/-- `api.getMemberProfile` (lines 21-47): demo guard, 60000 ms bound,
prefix `Failed to fetch profile: `, returns `data[0]` when the row list is
non-empty and null otherwise. -/
def getMemberProfile (env : Env) (settle : QSettle (List MemberProfile)) :
    ApiCall (Option MemberProfile) :=
  dbOp true 60000 "Failed to fetch profile: " (fun d => (d.getD []).head?) env settle

/-- `api.createMemberProfile` (lines 49-93): in demo mode returns the
synthesized pending profile without touching the database; otherwise an
insert with a 60000 ms bound and prefix `Failed to create profile: `. -/
def createMemberProfile (env : Env) (userId fullName nowIso : String) (nowMs : Nat)
    (settle : QSettle MemberProfile) : ApiCall (Option MemberProfile) :=
  if shouldUseDemoMode env then
    { result := Except.ok (some (demoPendingProfile userId fullName nowIso nowMs))
      queried := false
      timeoutUsed := none }
  else
    dbOp false 60000 "Failed to create profile: " id env settle

/-- `api.adminCreateMemberProfile` (lines 95-120): no demo-mode guard in
the source; insert with a 60000 ms bound. -/
def adminCreateMemberProfile (env : Env) (settle : QSettle MemberProfile) :
    ApiCall (Option MemberProfile) :=
  dbOp false 60000 "Failed to create profile: " id env settle

/-- `api.getAllMembers` (lines 122-146): demo guard, 90000 ms bound,
prefix `Failed to fetch members: `. -/
def getAllMembers (env : Env) (settle : QSettle (List MemberProfile)) :
    ApiCall (Option (List MemberProfile)) :=
  dbOp true 90000 "Failed to fetch members: " id env settle

/-- `api.updateMemberProfile` (lines 148-169): no demo-mode guard in the
source; update with a 60000 ms bound. -/
def updateMemberProfile (env : Env) (settle : QSettle MemberProfile) :
    ApiCall (Option MemberProfile) :=
  dbOp false 60000 "Failed to update profile: " id env settle

/-- `api.deleteMemberProfile` (lines 171-188): no demo-mode guard in the
source; delete with a 60000 ms bound, no returned data. -/
def deleteMemberProfile (env : Env) (settle : QSettle Unit) : ApiCall Unit :=
  dbOp false 60000 "Failed to delete profile: " (fun _ => ()) env settle

/-- `api.getLodgeDocuments` (lines 220-251): demo guard, 60000 ms bound.
The optional category filter only shapes the query, abstracted into
`settle`.  The row type lives in the external `../types` module, so it is a
type parameter here. -/
def getLodgeDocuments {α : Type} (env : Env) (settle : QSettle (List α)) :
    ApiCall (Option (List α)) :=
  dbOp true 60000 "Failed to fetch documents: " id env settle

/-- `api.createDocument` (lines 253-273): no demo-mode guard in the source;
insert with a 60000 ms bound. -/
def createDocument {α : Type} (env : Env) (settle : QSettle α) : ApiCall (Option α) :=
  dbOp false 60000 "Failed to create document: " id env settle

/-- `api.getMeetingMinutes` (lines 276-300): demo guard and a 60000 ms
bound — not 90000 ms, although it is a full-collection listing. -/
def getMeetingMinutes {α : Type} (env : Env) (settle : QSettle (List α)) :
    ApiCall (Option (List α)) :=
  dbOp true 60000 "Failed to fetch meeting minutes: " id env settle

/-- `api.createMinutes` (lines 302-322): no demo-mode guard in the source;
insert with a 60000 ms bound. -/
def createMinutes {α : Type} (env : Env) (settle : QSettle α) : ApiCall (Option α) :=
  dbOp false 60000 "Failed to create meeting minutes: " id env settle

end api

namespace cmsApi

/-- Every `cmsApi` operation performs the demo guard and calls the cms
`withTimeout` with no explicit bound, i.e. the 60000 ms default. -/
def cmsOp {α β : Type} (errorLabel : String) (shape : Option α → β)
    (env : Env) (settle : QSettle α) : ApiCall β :=
  dbOp true 60000 errorLabel shape env settle

/-- `cmsApi.getEvents`. -/
def getEvents {α : Type} (env : Env) (settle : QSettle (List α)) :
    ApiCall (Option (List α)) :=
  cmsOp "Failed to fetch events: " id env settle

/-- `cmsApi.getNextUpcomingEvent`: single-row lookup, returns `data[0]`
when present and null otherwise. -/
def getNextUpcomingEvent {α : Type} (env : Env) (settle : QSettle (List α)) :
    ApiCall (Option α) :=
  cmsOp "Failed to fetch next upcoming event: " (fun d => (d.getD []).head?) env settle

/-- `cmsApi.createEvent`. -/
def createEvent {α : Type} (env : Env) (settle : QSettle α) : ApiCall (Option α) :=
  cmsOp "Failed to create event: " id env settle

/-- `cmsApi.updateEvent`. -/
def updateEvent {α : Type} (env : Env) (settle : QSettle α) : ApiCall (Option α) :=
  cmsOp "Failed to update event: " id env settle

/-- `cmsApi.deleteEvent`. -/
def deleteEvent (env : Env) (settle : QSettle Unit) : ApiCall Unit :=
  cmsOp "Failed to delete event: " (fun _ => ()) env settle

/-- `cmsApi.getNewsArticles`. -/
def getNewsArticles {α : Type} (env : Env) (settle : QSettle (List α)) :
    ApiCall (Option (List α)) :=
  cmsOp "Failed to fetch news articles: " id env settle

/-- `cmsApi.createNewsArticle` (the publish-date defaulting only shapes the
inserted row, abstracted into `settle`). -/
def createNewsArticle {α : Type} (env : Env) (settle : QSettle α) : ApiCall (Option α) :=
  cmsOp "Failed to create news article: " id env settle

/-- `cmsApi.updateNewsArticle`. -/
def updateNewsArticle {α : Type} (env : Env) (settle : QSettle α) : ApiCall (Option α) :=
  cmsOp "Failed to update news article: " id env settle

/-- `cmsApi.deleteNewsArticle`. -/
def deleteNewsArticle (env : Env) (settle : QSettle Unit) : ApiCall Unit :=
  cmsOp "Failed to delete news article: " (fun _ => ()) env settle

/-- `cmsApi.getOfficers`. -/
def getOfficers {α : Type} (env : Env) (settle : QSettle (List α)) :
    ApiCall (Option (List α)) :=
  cmsOp "Failed to fetch officers: " id env settle

/-- `cmsApi.createOfficer`. -/
def createOfficer {α : Type} (env : Env) (settle : QSettle α) : ApiCall (Option α) :=
  cmsOp "Failed to create officer: " id env settle

/-- `cmsApi.updateOfficer`. -/
def updateOfficer {α : Type} (env : Env) (settle : QSettle α) : ApiCall (Option α) :=
  cmsOp "Failed to update officer: " id env settle

/-- `cmsApi.deleteOfficer`. -/
def deleteOfficer (env : Env) (settle : QSettle Unit) : ApiCall Unit :=
  cmsOp "Failed to delete officer: " (fun _ => ()) env settle

/-- `cmsApi.getTestimonials`. -/
def getTestimonials {α : Type} (env : Env) (settle : QSettle (List α)) :
    ApiCall (Option (List α)) :=
  cmsOp "Failed to fetch testimonials: " id env settle

/-- `cmsApi.createTestimonial`. -/
def createTestimonial {α : Type} (env : Env) (settle : QSettle α) : ApiCall (Option α) :=
  cmsOp "Failed to create testimonial: " id env settle

/-- `cmsApi.updateTestimonial`. -/
def updateTestimonial {α : Type} (env : Env) (settle : QSettle α) : ApiCall (Option α) :=
  cmsOp "Failed to update testimonial: " id env settle

/-- `cmsApi.deleteTestimonial`. -/
def deleteTestimonial (env : Env) (settle : QSettle Unit) : ApiCall Unit :=
  cmsOp "Failed to delete testimonial: " (fun _ => ()) env settle

/-- `cmsApi.getFAQItems`. -/
def getFAQItems {α : Type} (env : Env) (settle : QSettle (List α)) :
    ApiCall (Option (List α)) :=
  cmsOp "Failed to fetch FAQ items: " id env settle

/-- `cmsApi.createFAQItem`. -/
def createFAQItem {α : Type} (env : Env) (settle : QSettle α) : ApiCall (Option α) :=
  cmsOp "Failed to create FAQ item: " id env settle

/-- `cmsApi.updateFAQItem`. -/
def updateFAQItem {α : Type} (env : Env) (settle : QSettle α) : ApiCall (Option α) :=
  cmsOp "Failed to update FAQ item: " id env settle

/-- `cmsApi.deleteFAQItem`. -/
def deleteFAQItem (env : Env) (settle : QSettle Unit) : ApiCall Unit :=
  cmsOp "Failed to delete FAQ item: " (fun _ => ()) env settle

/-- `cmsApi.getSiteSettings`. -/
def getSiteSettings {α : Type} (env : Env) (settle : QSettle (List α)) :
    ApiCall (Option (List α)) :=
  cmsOp "Failed to fetch site settings: " id env settle

/-- `cmsApi.updateSiteSetting`. -/
def updateSiteSetting {α : Type} (env : Env) (settle : QSettle α) : ApiCall (Option α) :=
  cmsOp "Failed to update site setting: " id env settle

/-- `cmsApi.getPageContent`. -/
def getPageContent {α : Type} (env : Env) (settle : QSettle (List α)) :
    ApiCall (Option (List α)) :=
  cmsOp "Failed to fetch page content: " id env settle

/-- `cmsApi.updatePageContent`. -/
def updatePageContent {α : Type} (env : Env) (settle : QSettle α) : ApiCall (Option α) :=
  cmsOp "Failed to update page content: " id env settle

/-- `cmsApi.createPageContent`. -/
def createPageContent {α : Type} (env : Env) (settle : QSettle α) : ApiCall (Option α) :=
  cmsOp "Failed to create page content: " id env settle

end cmsApi

/-- The identity record issued by the auth provider, restricted to the
fields `AuthContext.tsx` reads (`user.id`, `user.email`). -/
structure User where
  id : String
  email : String
deriving Repr, DecidableEq

/-- The state cells of the `AuthProvider` component: `user`, `profile`,
`loading`, `error`. -/
structure AuthState where
  user : Option User
  profile : Option MemberProfile
  loading : Bool
  error : Option String
deriving Repr, DecidableEq

/-- `createDemoProfile` of `src/contexts/AuthContext.tsx` lines 35-48.
`now` stands for `new Date().toISOString()` at the call. -/
def createDemoProfile (user : User) (now : String) : MemberProfile :=
  { id := "demo-profile-1"
    user_id := user.id
    full_name := if user.email = "demo@radlettlodge.org" then "Demo Admin" else "New Member"
    position := if user.email = "demo@radlettlodge.org" then some "Worshipful Master" else none
    role := if user.email = "demo@radlettlodge.org" then "admin" else "member"
    join_date := "2020-03-15"
    created_at := "2020-03-15T00:00:00Z"
    updated_at := "2024-01-01T00:00:00Z"
    status := "active"
    email_verified := true
    registration_date := "2020-03-15T00:00:00Z"
    last_login := some now
    needs_password_reset := none }

/-- `loadProfile` of `AuthContext.tsx` lines 56-80.  `fetch` is the outcome
of the awaited `api.getMemberProfile(currentUser.id)` call: `Except.ok`
with the (possibly null) profile, or `Except.error` when the call threw.
The error cell is cleared first; a non-null real profile is stored as is;
a null profile or a thrown fetch falls back to the demo profile (the outer
catch installs the same demo profile, so both source paths coincide). -/
def loadProfile (fetch : Except String (Option MemberProfile)) (now : String)
    (currentUser : User) (s : AuthState) : AuthState :=
  let s1 := { s with error := none }
  match fetch with
  | Except.ok (some realProfile) => { s1 with profile := some realProfile }
  | Except.ok none => { s1 with profile := some (createDemoProfile currentUser now) }
  | Except.error _ => { s1 with profile := some (createDemoProfile currentUser now) }

/-- `refreshProfile` of `AuthContext.tsx` lines 82-86: reloads the profile
for the current identity, no-op when there is none. -/
def refreshProfile (fetch : Except String (Option MemberProfile)) (now : String)
    (s : AuthState) : AuthState :=
  match s.user with
  | some u => loadProfile fetch now u s
  | none => s

/-- Outcome of the awaited `supabase.auth.getSession()` call: a session
response with a possibly absent user, an error response, or a thrown
exception. -/
inductive SessionFetch where
  | ok (session : Option User)
  | err (message : String)
  | thrown (message : String)
deriving Repr, DecidableEq

/-- `getInitialSession` of `AuthContext.tsx` lines 92-111 (with the mounted
guard still true): an error response sets the `Authentication error`
string; a session user is stored and its profile loaded; a thrown
exception sets `Failed to authenticate`; the finally block always clears
the loading flag. -/
def getInitialSession (sr : SessionFetch) (fetch : Except String (Option MemberProfile))
    (now : String) (s : AuthState) : AuthState :=
  let s1 :=
    match sr with
    | SessionFetch.err _ => { s with error := some "Authentication error" }
    | SessionFetch.ok (some u) => loadProfile fetch now u { s with user := some u }
    | SessionFetch.ok none => s
    | SessionFetch.thrown _ => { s with error := some "Failed to authenticate" }
  { s1 with loading := false }

/-- The `onAuthStateChange` handler of `AuthContext.tsx` lines 117-137
(with the mounted guard still true): clears the error cell, then branches
on the event name exactly as the source if/else chain does; the
`SIGNED_IN` and `TOKEN_REFRESHED` branches additionally require a session
user. -/
def onAuthStateChange (event : String) (session : Option User)
    (fetch : Except String (Option MemberProfile)) (now : String)
    (s : AuthState) : AuthState :=
  let s1 := { s with error := none }
  if event = "SIGNED_IN" then
    match session with
    | some u => loadProfile fetch now u { s1 with user := some u }
    | none => s1
  else if event = "SIGNED_OUT" then
    { s1 with user := none, profile := none }
  else if event = "TOKEN_REFRESHED" then
    match session with
    | some u => { s1 with user := some u }
    | none => s1
  else s1

/-- `signOut` of `AuthContext.tsx` lines 145-157.  `providerError` is the
`error` field of the awaited `supabase.auth.signOut()` response.  Returns
the new state together with the rethrown error (none when nothing was
thrown): the error cell is cleared first; on provider success both state
cells are cleared; on provider failure the catch block sets the
`Failed to sign out` string and rethrows the provider error. -/
def signOut (providerError : Option String) (s : AuthState) :
    AuthState × Option String :=
  let s1 := { s with error := none }
  match providerError with
  | none => ({ s1 with user := none, profile := none }, none)
  | some e => ({ s1 with error := some "Failed to sign out" }, some e)

/-- The observable outcome of an operation blocked by the demo-mode guard:
the demo-mode error, no query issued, no timeout attached. -/
def demoBlocked {β : Type} : ApiCall β :=
  { result := Except.error demoModeError, queried := false, timeoutUsed := none }

/-- A guarded operation is fully blocked when the demo-mode predicate holds. -/
theorem dbOp_demo_guard {α β : Type} (t : Nat) (lbl : String) (shape : Option α → β)
    (env : Env) (h : shouldUseDemoMode env = true) (settle : QSettle α) :
    dbOp true t lbl shape env settle = demoBlocked := by
  simp [dbOp, h, demoBlocked]

/-- An unguarded operation always issues its query. -/
theorem dbOp_false_queried {α β : Type} (t : Nat) (lbl : String) (shape : Option α → β)
    (env : Env) (settle : QSettle α) :
    (dbOp false t lbl shape env settle).queried = true := by
  simp only [dbOp, Bool.false_and, Bool.false_eq_true, if_false]
  cases withTimeout settle t with
  | error e => rfl
  | ok r =>
    rcases r with ⟨d, err⟩
    cases err <;> rfl

/-- Outside demo mode, an operation attaches exactly its configured bound
to the query it issues. -/
theorem dbOp_timeoutUsed {α β : Type} (c : Bool) (t : Nat) (lbl : String)
    (shape : Option α → β) (env : Env) (h : shouldUseDemoMode env = false)
    (settle : QSettle α) :
    (dbOp c t lbl shape env settle).timeoutUsed = some t := by
  have hc : (c && shouldUseDemoMode env) = false := by simp [h]
  simp only [dbOp, hc, Bool.false_eq_true, if_false]
  cases withTimeout settle t with
  | error e => rfl
  | ok r =>
    rcases r with ⟨d, err⟩
    cases err <;> rfl

/-- C5: for every wrapped query, when the query has not settled strictly
before its configured bound it fails with the timeout error carrying the
bound (`Request timeout after <timeoutMs>ms`) and never resolves with a
result; when the query settles first, its own outcome (value or error) is
propagated unchanged. -/
theorem C5_withTimeout_race {α : Type} (t timeoutMs : Nat) (r : Except String α) :
    withTimeout (none : Option (Nat × Except String α)) timeoutMs =
      Except.error ("Request timeout after " ++ toString timeoutMs ++ "ms")
    ∧ (timeoutMs ≤ t →
        withTimeout (some (t, r)) timeoutMs =
          Except.error ("Request timeout after " ++ toString timeoutMs ++ "ms")
        ∧ ∀ v : α, withTimeout (some (t, r)) timeoutMs ≠ Except.ok v)
    ∧ (t < timeoutMs → withTimeout (some (t, r)) timeoutMs = r) := by
  refine ⟨rfl, fun h => ?_, fun h => ?_⟩
  · have hn : ¬ t < timeoutMs := Nat.not_lt.mpr h
    refine ⟨by simp [withTimeout, hn], fun v hv => ?_⟩
    simp [withTimeout, hn] at hv
  · simp [withTimeout, h]

/-- C5 witness: a query settling at 70000 ms loses against a 60000 ms
bound, one settling at 100 ms wins it. -/
theorem C5_withTimeout_race_witness :
    withTimeout (some (70000, Except.ok (5 : Nat))) 60000 =
      Except.error ("Request timeout after " ++ toString 60000 ++ "ms")
    ∧ withTimeout (some (100, Except.ok (5 : Nat))) 60000 = Except.ok 5 :=
  ⟨((C5_withTimeout_race 70000 60000 (Except.ok 5)).2.1 (by norm_num)).1,
    (C5_withTimeout_race 100 60000 (Except.ok 5)).2.2 (by norm_num)⟩

/-- C1: for an identity whose real-profile fetch fails or returns null,
loading the profile (directly or via `refreshProfile`) stores a placeholder
profile whose status is `active` and whose role is `admin` exactly when the
identity's email is the fixed demo-admin address (`member` otherwise); for
the demo-admin address the position is `Worshipful Master`. -/
theorem C1_placeholder_profile (u : User) (s : AuthState) (now : String)
    (fetch : Except String (Option MemberProfile))
    (hu : s.user = some u)
    (hfail : fetch = Except.ok none ∨ ∃ e, fetch = Except.error e) :
    ∃ p, (loadProfile fetch now u s).profile = some p
      ∧ (refreshProfile fetch now s).profile = some p
      ∧ p.status = "active"
      ∧ p.role = (if u.email = "demo@radlettlodge.org" then "admin" else "member")
      ∧ (p.role = "admin" ↔ u.email = "demo@radlettlodge.org")
      ∧ (u.email = "demo@radlettlodge.org" → p.position = some "Worshipful Master") := by
  have hload : (loadProfile fetch now u s).profile = some (createDemoProfile u now) := by
    rcases hfail with h | ⟨e, h⟩ <;> subst h <;> rfl
  refine ⟨createDemoProfile u now, hload, ?_, rfl, rfl, ?_, ?_⟩
  · simp only [refreshProfile, hu]
    exact hload
  · by_cases hd : u.email = "demo@radlettlodge.org"
    · simp [createDemoProfile, hd]
    · simp [createDemoProfile, hd]
  · intro hd
    simp [createDemoProfile, hd]

/-- C1 witness: the identity `{id: u1, email: demo@radlettlodge.org}` with
a null real profile gets the admin/active/Worshipful Master placeholder. -/
theorem C1_placeholder_profile_witness :
    ∃ p,
      (loadProfile (Except.ok none) "2024-06-01T00:00:00Z"
          { id := "u1", email := "demo@radlettlodge.org" }
          { user := some { id := "u1", email := "demo@radlettlodge.org" },
            profile := none, loading := false, error := none }).profile = some p
      ∧ (refreshProfile (Except.ok none) "2024-06-01T00:00:00Z"
          { user := some { id := "u1", email := "demo@radlettlodge.org" },
            profile := none, loading := false, error := none }).profile = some p
      ∧ p.status = "active"
      ∧ p.role = (if ("demo@radlettlodge.org" : String) = "demo@radlettlodge.org"
                  then "admin" else "member")
      ∧ (p.role = "admin" ↔ ("demo@radlettlodge.org" : String) = "demo@radlettlodge.org")
      ∧ (("demo@radlettlodge.org" : String) = "demo@radlettlodge.org" →
          p.position = some "Worshipful Master") :=
  C1_placeholder_profile
    { id := "u1", email := "demo@radlettlodge.org" }
    { user := some { id := "u1", email := "demo@radlettlodge.org" },
      profile := none, loading := false, error := none }
    "2024-06-01T00:00:00Z" (Except.ok none) rfl (Or.inl rfl)

/-- C6: every completed profile load stores a non-null profile and clears
the error cell, and both a signed-in event and a successful initial session
check leave the stored profile non-null. -/
theorem C6_profile_never_null (fetch : Except String (Option MemberProfile))
    (now : String) (u : User) (s : AuthState) :
    ((loadProfile fetch now u s).profile).isSome = true
    ∧ (loadProfile fetch now u s).error = none
    ∧ ((onAuthStateChange "SIGNED_IN" (some u) fetch now s).profile).isSome = true
    ∧ ((getInitialSession (SessionFetch.ok (some u)) fetch now s).profile).isSome = true := by
  rcases fetch with e | o
  · exact ⟨rfl, rfl, rfl, rfl⟩
  · cases o <;> exact ⟨rfl, rfl, rfl, rfl⟩

/-- C7: a signed-out event clears both the stored identity and the stored
profile, from any prior state and any session payload. -/
theorem C7_signed_out_clears (session : Option User)
    (fetch : Except String (Option MemberProfile)) (now : String) (s : AuthState) :
    (onAuthStateChange "SIGNED_OUT" session fetch now s).user = none
    ∧ (onAuthStateChange "SIGNED_OUT" session fetch now s).profile = none :=
  ⟨rfl, rfl⟩

/-- C8: a token-refreshed event carrying a session user updates the stored
identity to that user and leaves the previously stored profile value
untouched. -/
theorem C8_token_refresh_frame (u : User)
    (fetch : Except String (Option MemberProfile)) (now : String) (s : AuthState) :
    (onAuthStateChange "TOKEN_REFRESHED" (some u) fetch now s).user = some u
    ∧ (onAuthStateChange "TOKEN_REFRESHED" (some u) fetch now s).profile = s.profile :=
  ⟨rfl, rfl⟩

/-- C9: sign-out clears identity, profile and error on provider success;
on provider failure it sets the `Failed to sign out` error string and
rethrows the provider error to the caller. -/
theorem C9_signOut_behaviour (s : AuthState) (e : String) :
    signOut none s = ({ s with user := none, profile := none, error := none }, none)
    ∧ (signOut (some e) s).fst.error = some "Failed to sign out"
    ∧ (signOut (some e) s).snd = some e :=
  ⟨rfl, rfl, rfl⟩

/-- C10: a failed sign-out changes no session state beyond the error
string: identity and profile keep their prior values. -/
theorem C10_signOut_error_frame (s : AuthState) (e : String) :
    (signOut (some e) s).fst.user = s.user
    ∧ (signOut (some e) s).fst.profile = s.profile
    ∧ (signOut (some e) s).fst.error = some "Failed to sign out"
    ∧ (signOut (some e) s).snd = some e :=
  ⟨rfl, rfl, rfl, rfl⟩

/-- C2 counterexample: `api.deleteMemberProfile` carries no demo-mode
guard, so with the connection configuration absent it still issues its
query and succeeds instead of failing with the demo-mode error. -/
theorem C2_counterexample :
    (api.deleteMemberProfile
        { VITE_SUPABASE_URL := none, VITE_SUPABASE_ANON_KEY := none }
        (some (0, Except.ok { data := some (), error := none }))).queried = true
    ∧ (api.deleteMemberProfile
        { VITE_SUPABASE_URL := none, VITE_SUPABASE_ANON_KEY := none }
        (some (0, Except.ok { data := some (), error := none }))).result =
        Except.ok () :=
  ⟨rfl, rfl⟩

/-- C2 amended: when the demo-mode predicate holds, every `cmsApi`
operation and the guarded `api` reads fail immediately with the demo-mode
error and issue no query; `api.createMemberProfile` also issues no query
(returning a synthesized profile instead of an error); but
`api.adminCreateMemberProfile`, `api.updateMemberProfile`,
`api.deleteMemberProfile`, `api.createDocument` and `api.createMinutes`
carry no guard and issue their query even then. -/
theorem C2_demo_guard_coverage {α : Type} (env : Env)
    (h : shouldUseDemoMode env = true) :
    (∀ settle : QSettle MemberProfile,
        (api.adminCreateMemberProfile env settle).queried = true)
    ∧ (∀ settle : QSettle MemberProfile,
        (api.updateMemberProfile env settle).queried = true)
    ∧ (∀ settle : QSettle Unit,
        (api.deleteMemberProfile env settle).queried = true)
    ∧ (∀ settle : QSettle α, (api.createDocument env settle).queried = true)
    ∧ (∀ settle : QSettle α, (api.createMinutes env settle).queried = true)
    ∧ (∀ userId fullName nowIso : String, ∀ nowMs : Nat,
        ∀ settle : QSettle MemberProfile,
        (api.createMemberProfile env userId fullName nowIso nowMs settle).queried = false)
    ∧ (∀ settle : QSettle (List MemberProfile),
        api.getMemberProfile env settle = demoBlocked)
    ∧ (∀ settle : QSettle (List MemberProfile),
        api.getAllMembers env settle = demoBlocked)
    ∧ (∀ settle : QSettle (List α), api.getLodgeDocuments env settle = demoBlocked)
    ∧ (∀ settle : QSettle (List α), api.getMeetingMinutes env settle = demoBlocked)
    ∧ (∀ settle : QSettle (List α), cmsApi.getEvents env settle = demoBlocked)
    ∧ (∀ settle : QSettle (List α), cmsApi.getNextUpcomingEvent env settle = demoBlocked)
    ∧ (∀ settle : QSettle α, cmsApi.createEvent env settle = demoBlocked)
    ∧ (∀ settle : QSettle α, cmsApi.updateEvent env settle = demoBlocked)
    ∧ (∀ settle : QSettle Unit, cmsApi.deleteEvent env settle = demoBlocked)
    ∧ (∀ settle : QSettle (List α), cmsApi.getNewsArticles env settle = demoBlocked)
    ∧ (∀ settle : QSettle α, cmsApi.createNewsArticle env settle = demoBlocked)
    ∧ (∀ settle : QSettle α, cmsApi.updateNewsArticle env settle = demoBlocked)
    ∧ (∀ settle : QSettle Unit, cmsApi.deleteNewsArticle env settle = demoBlocked)
    ∧ (∀ settle : QSettle (List α), cmsApi.getOfficers env settle = demoBlocked)
    ∧ (∀ settle : QSettle α, cmsApi.createOfficer env settle = demoBlocked)
    ∧ (∀ settle : QSettle α, cmsApi.updateOfficer env settle = demoBlocked)
    ∧ (∀ settle : QSettle Unit, cmsApi.deleteOfficer env settle = demoBlocked)
    ∧ (∀ settle : QSettle (List α), cmsApi.getTestimonials env settle = demoBlocked)
    ∧ (∀ settle : QSettle α, cmsApi.createTestimonial env settle = demoBlocked)
    ∧ (∀ settle : QSettle α, cmsApi.updateTestimonial env settle = demoBlocked)
    ∧ (∀ settle : QSettle Unit, cmsApi.deleteTestimonial env settle = demoBlocked)
    ∧ (∀ settle : QSettle (List α), cmsApi.getFAQItems env settle = demoBlocked)
    ∧ (∀ settle : QSettle α, cmsApi.createFAQItem env settle = demoBlocked)
    ∧ (∀ settle : QSettle α, cmsApi.updateFAQItem env settle = demoBlocked)
    ∧ (∀ settle : QSettle Unit, cmsApi.deleteFAQItem env settle = demoBlocked)
    ∧ (∀ settle : QSettle (List α), cmsApi.getSiteSettings env settle = demoBlocked)
    ∧ (∀ settle : QSettle α, cmsApi.updateSiteSetting env settle = demoBlocked)
    ∧ (∀ settle : QSettle (List α), cmsApi.getPageContent env settle = demoBlocked)
    ∧ (∀ settle : QSettle α, cmsApi.updatePageContent env settle = demoBlocked)
    ∧ (∀ settle : QSettle α, cmsApi.createPageContent env settle = demoBlocked) := by
  simp only [api.adminCreateMemberProfile, api.updateMemberProfile,
    api.deleteMemberProfile, api.createDocument, api.createMinutes,
    api.createMemberProfile, api.getMemberProfile, api.getAllMembers,
    api.getLodgeDocuments, api.getMeetingMinutes, cmsApi.getEvents,
    cmsApi.getNextUpcomingEvent, cmsApi.createEvent, cmsApi.updateEvent,
    cmsApi.deleteEvent, cmsApi.getNewsArticles, cmsApi.createNewsArticle,
    cmsApi.updateNewsArticle, cmsApi.deleteNewsArticle, cmsApi.getOfficers,
    cmsApi.createOfficer, cmsApi.updateOfficer, cmsApi.deleteOfficer,
    cmsApi.getTestimonials, cmsApi.createTestimonial, cmsApi.updateTestimonial,
    cmsApi.deleteTestimonial, cmsApi.getFAQItems, cmsApi.createFAQItem,
    cmsApi.updateFAQItem, cmsApi.deleteFAQItem, cmsApi.getSiteSettings,
    cmsApi.updateSiteSetting, cmsApi.getPageContent, cmsApi.updatePageContent,
    cmsApi.createPageContent, cmsApi.cmsOp]
  simp [dbOp_demo_guard, dbOp_false_queried, h]

/-- C2 witness: with both configuration parameters absent, the unguarded
delete still issues its query while the guarded profile read is blocked. -/
theorem C2_demo_guard_coverage_witness :
    (api.deleteMemberProfile
        { VITE_SUPABASE_URL := none, VITE_SUPABASE_ANON_KEY := none } none).queried = true
    ∧ api.getMemberProfile
        { VITE_SUPABASE_URL := none, VITE_SUPABASE_ANON_KEY := none } none = demoBlocked := by
  have H := C2_demo_guard_coverage (α := Unit)
    { VITE_SUPABASE_URL := none, VITE_SUPABASE_ANON_KEY := none } rfl
  exact ⟨H.2.2.1 none, H.2.2.2.2.2.2.1 none⟩

/-- C3: with the connection configuration absent, every listed read
operation fails with the demo-mode error and issues no query, while
`createMemberProfile` instead returns a synthesized profile with status
`pending`, also without issuing a query. -/
theorem C3_demo_mode_reads {α : Type} (env : Env)
    (h : shouldUseDemoMode env = true) :
    (∀ settle : QSettle (List MemberProfile),
        api.getMemberProfile env settle = demoBlocked)
    ∧ (∀ settle : QSettle (List MemberProfile),
        api.getAllMembers env settle = demoBlocked)
    ∧ (∀ settle : QSettle (List α), api.getLodgeDocuments env settle = demoBlocked)
    ∧ (∀ settle : QSettle (List α), api.getMeetingMinutes env settle = demoBlocked)
    ∧ (∀ settle : QSettle (List α), cmsApi.getEvents env settle = demoBlocked)
    ∧ (∀ settle : QSettle (List α), cmsApi.getNextUpcomingEvent env settle = demoBlocked)
    ∧ (∀ settle : QSettle (List α), cmsApi.getNewsArticles env settle = demoBlocked)
    ∧ (∀ settle : QSettle (List α), cmsApi.getOfficers env settle = demoBlocked)
    ∧ (∀ settle : QSettle (List α), cmsApi.getTestimonials env settle = demoBlocked)
    ∧ (∀ settle : QSettle (List α), cmsApi.getFAQItems env settle = demoBlocked)
    ∧ (∀ settle : QSettle (List α), cmsApi.getSiteSettings env settle = demoBlocked)
    ∧ (∀ settle : QSettle (List α), cmsApi.getPageContent env settle = demoBlocked)
    ∧ (∀ userId fullName nowIso : String, ∀ nowMs : Nat,
        ∀ settle : QSettle MemberProfile,
        api.createMemberProfile env userId fullName nowIso nowMs settle =
          { result := Except.ok (some (demoPendingProfile userId fullName nowIso nowMs)),
            queried := false, timeoutUsed := none }
        ∧ (demoPendingProfile userId fullName nowIso nowMs).status = "pending") := by
  simp only [api.getMemberProfile, api.getAllMembers, api.getLodgeDocuments,
    api.getMeetingMinutes, api.createMemberProfile, cmsApi.getEvents,
    cmsApi.getNextUpcomingEvent, cmsApi.getNewsArticles, cmsApi.getOfficers,
    cmsApi.getTestimonials, cmsApi.getFAQItems, cmsApi.getSiteSettings,
    cmsApi.getPageContent, cmsApi.cmsOp]
  simp [dbOp_demo_guard, h, demoPendingProfile]

/-- C3 witness: with both configuration parameters absent, the profile
read is blocked and `createMemberProfile` synthesizes a pending profile. -/
theorem C3_demo_mode_reads_witness :
    api.getMemberProfile
        { VITE_SUPABASE_URL := none, VITE_SUPABASE_ANON_KEY := none } none = demoBlocked
    ∧ (api.createMemberProfile
          { VITE_SUPABASE_URL := none, VITE_SUPABASE_ANON_KEY := none }
          "uid-1" "New Member" "2024-06-01T00:00:00Z" 1717200000000 none =
        { result := Except.ok (some (demoPendingProfile "uid-1" "New Member"
              "2024-06-01T00:00:00Z" 1717200000000)),
          queried := false, timeoutUsed := none }
        ∧ (demoPendingProfile "uid-1" "New Member"
            "2024-06-01T00:00:00Z" 1717200000000).status = "pending") := by
  have H := C3_demo_mode_reads (α := Unit)
    { VITE_SUPABASE_URL := none, VITE_SUPABASE_ANON_KEY := none } rfl
  exact ⟨H.1 none,
    H.2.2.2.2.2.2.2.2.2.2.2.2 "uid-1" "New Member" "2024-06-01T00:00:00Z"
      1717200000000 none⟩

/-- C4 counterexample: `getMeetingMinutes` is a full-collection listing
yet attaches the 60000 ms bound, not the 90000 ms one the claim asserts
for every bulk listing. -/
theorem C4_counterexample :
    (api.getMeetingMinutes (α := Unit)
        { VITE_SUPABASE_URL := some "u", VITE_SUPABASE_ANON_KEY := some "k" }
        (some (0, Except.ok { data := some [], error := none }))).timeoutUsed =
      some 60000
    ∧ ¬ (api.getMeetingMinutes (α := Unit)
        { VITE_SUPABASE_URL := some "u", VITE_SUPABASE_ANON_KEY := some "k" }
        (some (0, Except.ok { data := some [], error := none }))).timeoutUsed =
      some 90000 := by
  decide

/-- C4 amended: timeout bounds are call-specific, but only `getAllMembers`
uses the 90000 ms bound; every other wrapped operation — the single-entity
calls and the other full-collection listings (`getMeetingMinutes`,
`getLodgeDocuments`, and all `cmsApi` operations via their shared 60000 ms
default) — uses 60000 ms. -/
theorem C4_call_specific_timeouts {α β : Type} (env : Env)
    (h : shouldUseDemoMode env = false) :
    (∀ settle : QSettle (List MemberProfile),
        (api.getAllMembers env settle).timeoutUsed = some 90000)
    ∧ (∀ settle : QSettle (List MemberProfile),
        (api.getMemberProfile env settle).timeoutUsed = some 60000)
    ∧ (∀ userId fullName nowIso : String, ∀ nowMs : Nat,
        ∀ settle : QSettle MemberProfile,
        (api.createMemberProfile env userId fullName nowIso nowMs settle).timeoutUsed =
          some 60000)
    ∧ (∀ settle : QSettle MemberProfile,
        (api.adminCreateMemberProfile env settle).timeoutUsed = some 60000)
    ∧ (∀ settle : QSettle MemberProfile,
        (api.updateMemberProfile env settle).timeoutUsed = some 60000)
    ∧ (∀ settle : QSettle Unit,
        (api.deleteMemberProfile env settle).timeoutUsed = some 60000)
    ∧ (∀ settle : QSettle (List α),
        (api.getLodgeDocuments env settle).timeoutUsed = some 60000)
    ∧ (∀ settle : QSettle α, (api.createDocument env settle).timeoutUsed = some 60000)
    ∧ (∀ settle : QSettle (List α),
        (api.getMeetingMinutes env settle).timeoutUsed = some 60000)
    ∧ (∀ settle : QSettle α, (api.createMinutes env settle).timeoutUsed = some 60000)
    ∧ (∀ lbl : String, ∀ shape : Option α → β, ∀ settle : QSettle α,
        (cmsApi.cmsOp lbl shape env settle).timeoutUsed = some 60000) := by
  simp only [api.getAllMembers, api.getMemberProfile, api.createMemberProfile,
    api.adminCreateMemberProfile, api.updateMemberProfile, api.deleteMemberProfile,
    api.getLodgeDocuments, api.createDocument, api.getMeetingMinutes,
    api.createMinutes, cmsApi.cmsOp]
  simp [dbOp_timeoutUsed, h]

/-- C4 witness: with the configuration present, `getAllMembers` attaches
90000 ms while `getMeetingMinutes` attaches 60000 ms. -/
theorem C4_call_specific_timeouts_witness :
    (api.getAllMembers
        { VITE_SUPABASE_URL := some "u", VITE_SUPABASE_ANON_KEY := some "k" }
        none).timeoutUsed = some 90000
    ∧ (api.getMeetingMinutes (α := Unit)
        { VITE_SUPABASE_URL := some "u", VITE_SUPABASE_ANON_KEY := some "k" }
        none).timeoutUsed = some 60000 := by
  have H := C4_call_specific_timeouts (α := Unit) (β := Unit)
    { VITE_SUPABASE_URL := some "u", VITE_SUPABASE_ANON_KEY := some "k" }
    (by decide)
  exact ⟨H.1 none, H.2.2.2.2.2.2.2.2.1 none⟩

end Radlett
